import Mathlib

/-!
Shallow embedding of the Raspberry-Pi-Quantum-Computer repository:
`src/QuantumEngine/utilities.py`, `src/QuantumEngine/quantum_simulator.py`
and `src/API/quantum_api.py`.

Modelling conventions:

* Python/JSON scalar values are represented by `PyVal` (`None`, `int`,
  `bool`, `str`).  Floating-point numbers never reach the control flow
  the claims are about and are out of scope.
* Python exceptions are represented by `PyErr`; code that can raise
  returns `Except PyErr _`.  Raising propagates through `Except.error`.
* The external qiskit parser (`QuantumCircuit.from_qasm_str`) is an
  opaque collaborator.  Its outcome on the script under consideration is
  passed explicitly as a `ParseResult` value: either a parsed circuit
  (exposing `num_qubits` and `num_clbits`) or a `QiskitError` carrying a
  message string.
* The external simulation engine (statevector evaluation, transpilation,
  sampling) is likewise opaque: handlers take a function producing an
  `EngOutcome` (success or an arbitrary raised exception) for the script
  and shot count they pass to it.  The engine's numeric payload is
  irrelevant to the dispatch logic and is not modelled.
* Flask turns an exception that escapes a request handler into an HTTP
  500 response; `httpStatus` applies that rule to a handler's `Except`
  result.
* Text is handled as lists of characters; the Python regex class `\s`
  and `str.strip` are modelled by the ASCII whitespace set, which covers
  every string these routines are applied to in the repository.
-/

namespace RPiQC

/-- Python/JSON scalar values as they flow through the request handlers. -/
inductive PyVal where
  | none
  | pyInt (n : Int)
  | pyBool (b : Bool)
  | pyStr (s : String)
deriving DecidableEq

/-- Python exceptions that the modelled code can raise. -/
inductive PyErr where
  | nameError (n : String)
  | typeError (m : String)
  | valueError (m : String)
deriving DecidableEq

/-- Equality of `Except` results is decidable when both components are. -/
instance exceptDecEq {ε α : Type} [DecidableEq ε] [DecidableEq α] :
    DecidableEq (Except ε α) := fun x y =>
  match x, y with
  | Except.ok a, Except.ok b =>
    if h : a = b then Decidable.isTrue (by rw [h])
    else Decidable.isFalse (fun hh => h (Except.ok.inj hh))
  | Except.error a, Except.error b =>
    if h : a = b then Decidable.isTrue (by rw [h])
    else Decidable.isFalse (fun hh => h (Except.error.inj hh))
  | Except.ok _, Except.error _ => Decidable.isFalse (fun hh => Except.noConfusion hh)
  | Except.error _, Except.ok _ => Decidable.isFalse (fun hh => Except.noConfusion hh)

/-- Python truthiness (`if not x`) for the values of `PyVal`. -/
def pyTruthy : PyVal → Bool
  | PyVal.none => false
  | PyVal.pyInt n => n != 0
  | PyVal.pyBool b => b
  | PyVal.pyStr s => s != ""

/-- `str(e)` rendering of a `PyErr`, mirroring CPython's messages. -/
def errText : PyErr → String
  | PyErr.nameError n => "name \x27" ++ n ++ "\x27 is not defined"
  | PyErr.typeError m => m
  | PyErr.valueError m => m

/-- ASCII whitespace, the characters Python's `str.strip` and the regex
class `\s` treat as space in the ASCII range. -/
def pySpace (c : Char) : Bool :=
  c = ' ' || c = '\t' || c = '\n' || c = '\r' || c = '\x0b' || c = '\x0c'

/-- Drop leading and trailing whitespace from a character list
(Python `str.strip`). -/
def stripChars (cs : List Char) : List Char :=
  ((cs.dropWhile pySpace).reverse.dropWhile pySpace).reverse

/-- Python `str.strip` on strings. -/
def pyStrip (s : String) : String := String.mk (stripChars s.data)

/-- Split a character list at newline characters (Python
`str.splitlines` restricted to `\n` separators, which is the only line
separator occurring in the QASM scripts handled here; a trailing empty
piece is harmless because every consumer skips blank lines). -/
def splitAux : List Char → List Char → List (List Char)
  | [], acc => [acc.reverse]
  | c :: cs, acc =>
    if c = '\n' then acc.reverse :: splitAux cs [] else splitAux cs (c :: acc)

/-- `str.splitlines` on strings. -/
def splitlines (s : String) : List String := (splitAux s.data []).map String.mk

/-- Boolean test that `p` is a leading segment of `cs`
(Python `str.startswith`). -/
def leadsWith : List Char → List Char → Bool
  | [], _ => true
  | _ :: _, [] => false
  | p :: ps, c :: cs => p == c && leadsWith ps cs

/-- Drop trailing whitespace only. -/
def stripTrailing (cs : List Char) : List Char :=
  (cs.reverse.dropWhile pySpace).reverse

/-- The regex `^measure\s+[^\n]+;\s*$` of `utilities.py` applied to a
single line (no embedded newline): the line starts with `measure`
followed by a whitespace character, and after discarding trailing
whitespace the remainder has at least two characters and ends with a
semicolon (the `\s+`/`[^\n]+` split is absorbed, since `\s` is contained
in `[^\n]`). -/
def measureMatch : List Char → Bool
  | 'm' :: 'e' :: 'a' :: 's' :: 'u' :: 'r' :: 'e' :: c :: rest =>
    pySpace c &&
      (match (stripTrailing rest).reverse with
       | ';' :: _ :: _ => true
       | _ => false)
  | _ => false

/-- A line that `has_intermediate_measure` skips: blank, `//` comment or
`#` comment (tested on the stripped line). -/
def skipLineChars (cs : List Char) : Bool :=
  cs.isEmpty || leadsWith ['/', '/'] cs || leadsWith ['#'] cs

/-- Body of the loop of `has_intermediate_measure` (utilities.py lines
61-75): walk the lines remembering whether a measure line has been seen;
a non-skipped, non-measure line after a measure line returns `true`. -/
def himAux : List (List Char) → Bool → Bool
  | [], _ => false
  | l :: ls, found =>
    let st := stripChars l
    if skipLineChars st then himAux ls found
    else if measureMatch st then himAux ls true
    else if found then true
    else himAux ls false

/-- `has_intermediate_measure` (utilities.py lines 59-75).  Note the
name: the module defines `has_intermediate_measure`, while
`validate_qasm` line 38 calls `has_intermediate_measurement`, a name
that does not exist in the module. -/
def has_intermediate_measure (qasm_code : String) : Bool :=
  himAux (splitAux (stripChars qasm_code.data) []) false

/-- `has_measurement` (utilities.py lines 77-78): the multiline regex
`^\s*measure\s+.+?;\s*$` finds a match exactly when some line, stripped
of surrounding whitespace, matches the single-line measure pattern. -/
def has_measurement (qasm_script : String) : Bool :=
  (splitAux qasm_script.data []).any (fun l => measureMatch (stripChars l))

/-- Parse a nonempty all-digit character list as a natural number. -/
def parseNatChars (cs : List Char) : Option Nat :=
  if cs.isEmpty || !(cs.all Char.isDigit) then Option.none
  else Option.some (cs.foldl (fun a c => a * 10 + (c.toNat - 48)) 0)

/-- Take a maximal nonempty digit run from the front of a list. -/
def digitRun (cs : List Char) : Option (List Char × List Char) :=
  let ds := cs.takeWhile Char.isDigit
  if ds.isEmpty then Option.none
  else Option.some (ds, cs.dropWhile Char.isDigit)

/-- Try to match the regex `:(\d+)\,(\d+):` anchored at the head of the
list, returning the two digit groups. -/
def locAt : List Char → Option (String × String)
  | ':' :: rest =>
    match digitRun rest with
    | Option.some (d1, ',' :: rest2) =>
      match digitRun rest2 with
      | Option.some (d2, ':' :: _) => Option.some (String.mk d1, String.mk d2)
      | _ => Option.none
    | _ => Option.none
  | _ => Option.none

/-- `re.search` for the pattern `:(\d+)\,(\d+):`: first (leftmost)
position at which the anchored match succeeds. -/
def searchLoc : List Char → Option (String × String)
  | [] => Option.none
  | c :: cs =>
    match locAt (c :: cs) with
    | Option.some r => Option.some r
    | Option.none => searchLoc cs

/-- Sentinel constants of utilities.py lines 5-10. -/
def VALID : Int := -1

def TOO_MANY_QUBITS : Int := -2

def REGISTER_MISMATCH : Int := -3

def INTERMEDIATE_MEASUREMENT : Int := -4

def NO_MEASUREMENT : Int := -5

def UNKNOWN_ERROR : Int := -6

/-- The validation-result dictionary built by `validate_qasm`.  `line`
and `col` hold `PyVal`s because the code stores integers (the sentinel
constants) on the structural paths but strings (the regex capture
groups) on the parse-error path. -/
structure Diagnostic where
  error : String
  line : PyVal
  col : PyVal
deriving DecidableEq

/-- The view of a parsed circuit used by `validate_qasm`: the qubit and
classical-bit counts exposed by the external parser. -/
structure ParsedCircuit where
  num_qubits : Int
  num_clbits : Int
deriving DecidableEq

/-- Outcome of the external parser `QuantumCircuit.from_qasm_str` on the
script under consideration: a circuit, or a raised `QiskitError` with a
message string. -/
inductive ParseResult where
  | ok (qc : ParsedCircuit)
  | qiskitError (msg : String)
deriving DecidableEq

/-- `validate_qasm` (utilities.py lines 12-57).  The external parser's
outcome on `qasm_script` is supplied as `parse`.  On the path where the
circuit parses, does not exceed the qubit limit and has matching
register sizes, line 38 evaluates the name `has_intermediate_measurement`,
which is not defined anywhere in the module (the helper is named
`has_intermediate_measure`), so Python raises `NameError`; the `except`
clause catches only `QiskitError`, so the `NameError` escapes.  Lines
42-45 (the `has_measurement` check) are consequently unreachable.  On
the parse-error path, `line`/`col` are set only when the location regex
matches; otherwise they keep the initial value `VALID`. -/
def validate_qasm (parse : ParseResult) (qasm_script : String) (num_qubits : Int) :
    Except PyErr Diagnostic :=
  match parse with
  | ParseResult.ok qc =>
    if qc.num_qubits > num_qubits then
      Except.ok
        { error := "The device cannot support more than " ++ toString num_qubits ++ " qubits."
          line := PyVal.pyInt TOO_MANY_QUBITS
          col := PyVal.pyInt TOO_MANY_QUBITS }
    else if qc.num_qubits ≠ qc.num_clbits then
      Except.ok
        { error := "The number of qubits (" ++ toString qc.num_qubits ++
            ") should match the number of classical registers (" ++
            toString qc.num_clbits ++ ")."
          line := PyVal.pyInt REGISTER_MISMATCH
          col := PyVal.pyInt REGISTER_MISMATCH }
    else
      Except.error (PyErr.nameError "has_intermediate_measurement")
  | ParseResult.qiskitError msg =>
    match searchLoc msg.data with
    | Option.some lc =>
      Except.ok { error := msg, line := PyVal.pyStr lc.1, col := PyVal.pyStr lc.2 }
    | Option.none =>
      Except.ok { error := msg, line := PyVal.pyInt VALID, col := PyVal.pyInt VALID }

/-- `QuantumComputer.ALLOWED_BACKENDS` (quantum_simulator.py line 21). -/
def ALLOWED_BACKENDS : List String := ["fault-tolerant", "noisy"]

/-- The state of a `QuantumComputer` instance: the private fields
`__max_qubits`, `__simulators` (of which only the key set matters — the
values are opaque external simulator handles), `__backend` and
`__n_qubits`. -/
structure QuantumComputer where
  max_qubits : Int
  simulators : List String
  backend : String
  n_qubits : Int
deriving DecidableEq

/-- The `num_qubits` property getter (quantum_simulator.py lines
118-121). -/
def QuantumComputer.num_qubits (qc : QuantumComputer) : Int := qc.n_qubits

/-- The `backend` property setter (quantum_simulator.py lines 103-116):
raises `ValueError` when the value is outside `ALLOWED_BACKENDS`, and
only assigns afterwards, so a failed assignment leaves the stored
backend unchanged. -/
def QuantumComputer.set_backend (qc : QuantumComputer) (value : String) :
    Except PyErr QuantumComputer :=
  if value ∉ ALLOWED_BACKENDS then
    Except.error (PyErr.valueError
      ("The provided backend (" ++ value ++
        ") is invalid. Allowed values: (\x27fault-tolerant\x27, \x27noisy\x27)"))
  else
    Except.ok { qc with backend := value }

/-- The `num_qubits` property setter (quantum_simulator.py lines
123-139): rejects `n <= 0`; when `__max_qubits` is truthy (nonzero),
additionally rejects `n > __max_qubits`; assignment happens last. -/
def QuantumComputer.set_num_qubits (qc : QuantumComputer) (n : Int) :
    Except PyErr QuantumComputer :=
  if n ≤ 0 then
    Except.error (PyErr.valueError
      ("Invalid num_qubits: " ++ toString n ++ ". Only integers >= 1 are valid."))
  else if qc.max_qubits ≠ 0 then
    if n > qc.max_qubits then
      Except.error (PyErr.valueError
        ("This quantum computer cannot support more than " ++
          toString qc.max_qubits ++ " qubits."))
    else
      Except.ok { qc with n_qubits := n }
  else
    Except.ok { qc with n_qubits := n }

/-- `__init_backend` (quantum_simulator.py lines 141-151): stores an
external simulator handle under the given key; only the key set is
modelled. -/
def QuantumComputer.init_backend (qc : QuantumComputer) (backend : String) :
    QuantumComputer :=
  if backend = "fault-tolerant" then { qc with simulators := qc.simulators ++ [backend] }
  else if backend = "noisy" then { qc with simulators := qc.simulators ++ [backend] }
  else qc

/-- The state effect of `__call__` (quantum_simulator.py lines 65-96):
the only mutation execution performs on the wrapper is populating the
backend cache on first use of the current backend.  Everything that
follows (parsing, circuit validation, statevector evaluation,
transpilation, sampling) either raises — leaving the state as returned
here — or succeeds without touching the wrapper's fields. -/
def QuantumComputer.call_state (qc : QuantumComputer) : QuantumComputer :=
  if qc.backend ∈ qc.simulators then qc else qc.init_backend qc.backend

/-- `__init__` (quantum_simulator.py lines 23-40): validates
`max_qubits`, starts from an empty cache, then runs the two validating
setters in the source's order (the placeholder field values stand for
the attributes that do not exist yet before their first assignment; a
raised setter error aborts construction). -/
def QuantumComputer.init (num_qubits : Int) (backend : String) (max_qubits : Int) :
    Except PyErr QuantumComputer :=
  if max_qubits < 0 then
    Except.error (PyErr.valueError "max_qubits must be a non-negative integer.")
  else
    match QuantumComputer.set_backend
        { max_qubits := max_qubits, simulators := [], backend := "", n_qubits := 0 }
        backend with
    | Except.error e => Except.error e
    | Except.ok qc1 => qc1.set_num_qubits num_qubits

/-- The state invariants of the wrapper (spec section 3). -/
@[reducible]
def QuantumComputer.Invariant (qc : QuantumComputer) : Prop :=
  1 ≤ qc.n_qubits ∧
  (0 < qc.max_qubits → qc.n_qubits ≤ qc.max_qubits) ∧
  qc.backend ∈ ALLOWED_BACKENDS ∧
  ∀ k ∈ qc.simulators, k ∈ ALLOWED_BACKENDS

/-- A JSON object body, as returned by `request.get_json()`. -/
abbrev Dict := List (String × PyVal)

/-- Python `dict.get`: the stored value, or `None` when absent. -/
def dictGet (d : Dict) (k : String) : PyVal :=
  match d.find? (fun kv => kv.fst == k) with
  | Option.some kv => kv.snd
  | Option.none => PyVal.none

/-- Outcome of invoking the external engine through
`QuantumComputer.__call__`: a result dictionary, or some raised
exception (the bare `except:` of the handler does not inspect it). -/
inductive EngOutcome where
  | success
  | raises
deriving DecidableEq

/-- Response bodies produced by the request handlers. -/
inductive RespBody where
  | errOnly (error : String)
  | withMessage (message : String) (error : String)
  | diag (d : Diagnostic)
  | execResult
  | qubitsUpdated (num_qubits : Int)
  | backendUpdated (backend : String)
deriving DecidableEq

/-- The script value a handler forwards to `validate_qasm`.  The script
only ever reaches the external parser (modelled by the `ParseResult`
parameter) and the unreachable text checks of `validate_qasm`, so
non-string values are represented by empty text. -/
def scriptStr : PyVal → String
  | PyVal.pyStr s => s
  | _ => ""

/-- Python `int(x)` (CPython semantics on the modelled values):
identity on integers, `True`/`False` to 1/0, digit strings with an
optional sign to their value, other strings raise `ValueError`, `None`
raises `TypeError`. -/
def int_of (v : PyVal) : Except PyErr Int :=
  match v with
  | PyVal.pyInt n => Except.ok n
  | PyVal.pyBool b => Except.ok (if b then 1 else 0)
  | PyVal.pyStr s =>
    (match stripChars s.data with
     | '-' :: rest =>
       match parseNatChars rest with
       | Option.some m => Except.ok (-(m : Int))
       | Option.none =>
         Except.error (PyErr.valueError
           ("invalid literal for int() with base 10: \x27" ++ s ++ "\x27"))
     | '+' :: rest =>
       match parseNatChars rest with
       | Option.some m => Except.ok (m : Int)
       | Option.none =>
         Except.error (PyErr.valueError
           ("invalid literal for int() with base 10: \x27" ++ s ++ "\x27"))
     | cs =>
       match parseNatChars cs with
       | Option.some m => Except.ok (m : Int)
       | Option.none =>
         Except.error (PyErr.valueError
           ("invalid literal for int() with base 10: \x27" ++ s ++ "\x27")))
  | PyVal.none =>
    Except.error (PyErr.typeError
      "int() argument must be a string, a bytes-like object or a real number, not \x27NoneType\x27")

/-- Python `str(x)` on the modelled values. -/
def str_of : PyVal → String
  | PyVal.none => "None"
  | PyVal.pyStr s => s
  | PyVal.pyInt n => toString n
  | PyVal.pyBool b => if b then "True" else "False"

/-- Tail of the `/execute` handler after field extraction
(quantum_api.py lines 41-49): run the engine; on success answer 200 with
the (transformed, opaque) result; on any exception fall back to
`validate_qasm` and answer 400 with its diagnostic — an answer that
exists only when `validate_qasm` itself returns instead of raising. -/
def run_with (eng : PyVal → PyVal → EngOutcome) (parse : ParseResult)
    (qc : QuantumComputer) (qasm shots : PyVal) : Except PyErr (Nat × RespBody) :=
  match eng qasm shots with
  | EngOutcome.success => Except.ok (200, RespBody.execResult)
  | EngOutcome.raises =>
    match validate_qasm parse (scriptStr qasm) qc.num_qubits with
    | Except.ok d => Except.ok (400, RespBody.diag d)
    | Except.error e => Except.error e

/-- `run_script`, the `POST /execute` handler (quantum_api.py lines
26-49): reject falsy bodies and falsy `script` values with 400; default
a falsy `shots` value to 1024; then dispatch to the engine. -/
def run_script (data : Option Dict) (eng : PyVal → PyVal → EngOutcome)
    (parse : ParseResult) (qc : QuantumComputer) : Except PyErr (Nat × RespBody) :=
  match data with
  | Option.none => Except.ok (400, RespBody.errOnly "Request contained no JSON body.")
  | Option.some d =>
    if d.isEmpty then
      Except.ok (400, RespBody.errOnly "Request contained no JSON body.")
    else
      let qasm := dictGet d "script"
      if pyTruthy qasm = false then
        Except.ok (400, RespBody.errOnly "No QASM script: Missing \x22script\x22 field.")
      else
        let shots0 := dictGet d "shots"
        let shots := if pyTruthy shots0 then shots0 else PyVal.pyInt 1024
        run_with eng parse qc qasm shots

/-- `validate_script`, the `POST /validate` handler (quantum_api.py
lines 51-64): reject falsy bodies and falsy `script` values with 400;
otherwise answer 200 with whatever `validate_qasm` returns — unless
`validate_qasm` raises, in which case the exception escapes the
handler. -/
def validate_script (data : Option Dict) (parse : ParseResult)
    (qc : QuantumComputer) : Except PyErr (Nat × RespBody) :=
  match data with
  | Option.none => Except.ok (400, RespBody.errOnly "Request contained no JSON body.")
  | Option.some d =>
    if d.isEmpty then
      Except.ok (400, RespBody.errOnly "Request contained no JSON body.")
    else
      let qasm := dictGet d "script"
      if pyTruthy qasm = false then
        Except.ok (400, RespBody.errOnly "No QASM script: Missing \x22script\x22 field.")
      else
        match validate_qasm parse (scriptStr qasm) qc.num_qubits with
        | Except.ok dg => Except.ok (200, RespBody.diag dg)
        | Except.error e => Except.error e

/-- `update_qubits`, the `POST /update/qubits` handler (quantum_api.py
lines 80-96).  `int(data.get("num_qubits"))` runs before the
missing-field test, so an absent field raises `TypeError` and a
non-numeric string raises `ValueError`, both escaping the handler.  In
the `except ValueError` branch the code passes the exception object
itself (not `str(e)`) into `jsonify`; Flask's JSON encoder rejects
exception objects, so that branch raises `TypeError` instead of
answering. -/
def update_qubits (data : Option Dict) (qc : QuantumComputer) :
    Except PyErr (Nat × RespBody × QuantumComputer) :=
  match data with
  | Option.none =>
    Except.ok (400, RespBody.withMessage "Missing request body." "Request contained no JSON body.", qc)
  | Option.some d =>
    if d.isEmpty then
      Except.ok (400, RespBody.withMessage "Missing request body." "Request contained no JSON body.", qc)
    else
      match int_of (dictGet d "num_qubits") with
      | Except.error e => Except.error e
      | Except.ok num_qubits =>
        if num_qubits = 0 then
          Except.ok (400, RespBody.withMessage "Missing request field." "Missing \x22num_qubits\x22 field.", qc)
        else
          match qc.set_num_qubits num_qubits with
          | Except.error _ =>
            Except.error (PyErr.typeError "Object of type ValueError is not JSON serializable")
          | Except.ok qc2 =>
            Except.ok (200, RespBody.qubitsUpdated num_qubits, qc2)

/-- `update_backend`, the `POST /update/backend` handler (quantum_api.py
lines 98-116): stringify the field with `str(...)`, test the result for
emptiness, then run the backend setter, mapping `ValueError` to 400 and
any other exception to 500. -/
def update_backend (data : Option Dict) (qc : QuantumComputer) :
    Except PyErr (Nat × RespBody × QuantumComputer) :=
  match data with
  | Option.none =>
    Except.ok (400, RespBody.withMessage "Missing request body." "Request contained no JSON body.", qc)
  | Option.some d =>
    if d.isEmpty then
      Except.ok (400, RespBody.withMessage "Missing request body." "Request contained no JSON body.", qc)
    else
      let backend := str_of (dictGet d "backend")
      if backend = "" then
        Except.ok (400, RespBody.withMessage "Missing request field." "Missing \x22backend\x22 field.", qc)
      else
        match qc.set_backend backend with
        | Except.error (PyErr.valueError m) =>
          Except.ok (400, RespBody.withMessage "Invalid backend." m, qc)
        | Except.error e =>
          Except.ok (500, RespBody.withMessage "Internal server error." (errText e), qc)
        | Except.ok qc2 =>
          Except.ok (200, RespBody.backendUpdated backend, qc2)

/-- Flask maps a handler's uncaught exception to HTTP 500. -/
def httpStatus (r : Except PyErr (Nat × RespBody)) : Nat :=
  match r with
  | Except.ok p => p.fst
  | Except.error _ => 500

/-- A QASM script ending in a measurement that is followed by a further
gate operation. -/
def interScript : String :=
  "qreg q[1];\ncreg c[1];\nmeasure q[0] -> c[0];\nh q[0];"

/-- A structurally clean QASM script: measurements only at the end,
two qubits, two classical bits. -/
def bellScript : String :=
  "OPENQASM 2.0;\ninclude \x22qelib1.inc\x22;\nqreg q[2];\ncreg c[2];\nh q[0];\ncx q[0],q[1];\nmeasure q -> c;"

/-- The server's wrapper instance `qsim.QuantumComputer(10)`: ten
qubits, default backend, unbounded `max_qubits`. -/
def qcW : QuantumComputer :=
  { max_qubits := 0, simulators := [], backend := "fault-tolerant", n_qubits := 10 }

/-- A bounded wrapper instance used to exercise the `max_qubits`
branch. -/
def qcB : QuantumComputer :=
  { max_qubits := 10, simulators := [], backend := "noisy", n_qubits := 3 }

/-- Concrete body, engine and parse outcome used as witnesses for the
handler theorems. -/
def dW : Dict := [("script", PyVal.pyStr "x"), ("shots", PyVal.pyInt 0)]

def engW : PyVal → PyVal → EngOutcome := fun _ _ => EngOutcome.success

def parseW : ParseResult := ParseResult.qiskitError "unterminated string"

/-- C1: the claim states that a script which parses, respects the qubit
limit and has matching register sizes, but contains a measurement
followed by further non-blank non-comment operations, makes
`validate_qasm` return the intermediate-measurement diagnostic
(sentinel -4).  In fact `validate_qasm` line 38 calls
`has_intermediate_measurement`, a name the module never defines (the
helper is `has_intermediate_measure`), so on exactly this path Python
raises `NameError`, which the `except QiskitError` clause does not
catch: the -4 diagnostic is never produced.  The theorem exhibits a
concrete such script (the helper itself classifies it as containing an
intermediate measurement) on which `validate_qasm` raises instead of
returning the diagnostic. -/
theorem C1_intermediate_measurement_raises_NameError :
    has_intermediate_measure interScript = true ∧
    validate_qasm (ParseResult.ok { num_qubits := 1, num_clbits := 1 }) interScript 10
      = Except.error (PyErr.nameError "has_intermediate_measurement") := by
  exact ⟨by decide, by decide⟩

/-- C2: the claim states that a parse failure whose message carries no
`:<line>,<col>:` location yields a sentinel distinct from the no-error
value -1.  In fact `validate_qasm` initialises `line`/`col` to `VALID`
(-1) and the `except` branch overwrites them only when the location
regex matches, so a location-free parse error reports line = col = -1,
exactly the no-error sentinel; the constant `UNKNOWN_ERROR` (-6) is
defined but never assigned. -/
theorem C2_parse_error_without_location_reports_valid_sentinel :
    validate_qasm (ParseResult.qiskitError "Cannot parse.") "" 10
      = Except.ok { error := "Cannot parse.", line := PyVal.pyInt VALID, col := PyVal.pyInt VALID } ∧
    VALID = -1 ∧ UNKNOWN_ERROR = -6 := by
  exact ⟨by decide, rfl, rfl⟩

/-- C3: the claim states that whenever executing the script raises, the
`/execute` handler answers 400 with the validator's diagnostic and never
a server-error status.  In fact the fallback call to `validate_qasm` is
not guarded, and `validate_qasm` itself raises `NameError` on every
script that parses, fits the qubit limit and has matching registers (the
misnamed `has_intermediate_measurement`); the exception escapes the
handler and Flask answers 500.  The theorem runs the handler on a
well-formed body whose script is such a circuit, with an engine whose
execution raises. -/
theorem C3_execution_failure_yields_500 :
    run_script (Option.some [("script", PyVal.pyStr bellScript)])
        (fun _ _ => EngOutcome.raises)
        (ParseResult.ok { num_qubits := 2, num_clbits := 2 }) qcW
      = Except.error (PyErr.nameError "has_intermediate_measurement") ∧
    httpStatus (run_script (Option.some [("script", PyVal.pyStr bellScript)])
        (fun _ _ => EngOutcome.raises)
        (ParseResult.ok { num_qubits := 2, num_clbits := 2 }) qcW) = 500 := by
  exact ⟨by rfl, by rfl⟩

/-- C4: the claim states that `/update/qubits` answers 400 when the
`num_qubits` field is missing or invalid.  In fact the handler computes
`int(data.get("num_qubits"))` before its missing-field test, so a
missing field raises `TypeError` and a non-numeric value raises
`ValueError`; and in the invalid-value branch it hands the raw
`ValueError` object to `jsonify`, which raises `TypeError`.  All three
exceptions escape the handler, so Flask answers 500, not 400. -/
theorem C4_update_qubits_error_paths_raise :
    update_qubits (Option.some [("foo", PyVal.pyInt 1)]) qcW
      = Except.error (PyErr.typeError
          "int() argument must be a string, a bytes-like object or a real number, not \x27NoneType\x27") ∧
    update_qubits (Option.some [("num_qubits", PyVal.pyStr "abc")]) qcW
      = Except.error (PyErr.valueError "invalid literal for int() with base 10: \x27abc\x27") ∧
    update_qubits (Option.some [("num_qubits", PyVal.pyInt (-1))]) qcW
      = Except.error (PyErr.typeError "Object of type ValueError is not JSON serializable") := by
  exact ⟨by decide, by decide, by decide⟩

/-- C5: for every integer `n` and wrapper with non-negative bound
`max_qubits` (the constructor rejects negative bounds), if `1 ≤ n` and
the bound is zero or not exceeded, the `num_qubits` setter succeeds and
the getter subsequently returns `n`; otherwise (`n ≤ 0`, or a positive
bound smaller than `n`) it raises `ValueError` — and returns no new
state, so the stored value is unchanged.  The two cases are exhaustive. -/
theorem C5_num_qubits_setter_spec (qc : QuantumComputer) (n : Int)
    (hmax : 0 ≤ qc.max_qubits) :
    (1 ≤ n ∧ (qc.max_qubits = 0 ∨ n ≤ qc.max_qubits) →
      qc.set_num_qubits n = Except.ok { qc with n_qubits := n } ∧
      ({ qc with n_qubits := n } : QuantumComputer).num_qubits = n) ∧
    (n ≤ 0 ∨ (0 < qc.max_qubits ∧ qc.max_qubits < n) →
      ∃ m, qc.set_num_qubits n = Except.error (PyErr.valueError m)) ∧
    ((1 ≤ n ∧ (qc.max_qubits = 0 ∨ n ≤ qc.max_qubits)) ∨
      (n ≤ 0 ∨ (0 < qc.max_qubits ∧ qc.max_qubits < n))) := by
  refine ⟨?_, ?_, by omega⟩
  · rintro ⟨h1, h2⟩
    unfold QuantumComputer.set_num_qubits
    rw [if_neg (by omega : ¬ n ≤ 0)]
    by_cases hz : qc.max_qubits = 0
    · rw [if_neg (by omega : ¬ qc.max_qubits ≠ 0)]
      exact ⟨rfl, rfl⟩
    · rw [if_pos (by omega : qc.max_qubits ≠ 0),
        if_neg (by omega : ¬ n > qc.max_qubits)]
      exact ⟨rfl, rfl⟩
  · intro h
    unfold QuantumComputer.set_num_qubits
    rcases h with h | ⟨h1, h2⟩
    · rw [if_pos h]
      exact ⟨_, rfl⟩
    · rw [if_neg (by omega : ¬ n ≤ 0), if_pos (by omega : qc.max_qubits ≠ 0),
        if_pos (by omega : n > qc.max_qubits)]
      exact ⟨_, rfl⟩

/-- Witness for C5 at a concrete bounded wrapper and `n = 7`. -/
theorem C5_num_qubits_setter_spec_witness :
    qcB.set_num_qubits 7 = Except.ok { qcB with n_qubits := 7 } ∧
    ({ qcB with n_qubits := 7 } : QuantumComputer).num_qubits = 7 :=
  (C5_num_qubits_setter_spec qcB 7 (by decide)).1 (by decide)

/-- C6: the `backend` setter raises `ValueError` exactly when the value
is outside `ALLOWED_BACKENDS`; on failure it returns no new state (the
stored backend is unchanged), and on an allowed value it succeeds and
the getter subsequently returns the value. -/
theorem C6_backend_setter_spec (qc : QuantumComputer) (v : String) :
    ((∃ m, qc.set_backend v = Except.error (PyErr.valueError m)) ↔ v ∉ ALLOWED_BACKENDS) ∧
    (v ∈ ALLOWED_BACKENDS →
      qc.set_backend v = Except.ok { qc with backend := v } ∧
      ({ qc with backend := v } : QuantumComputer).backend = v) := by
  by_cases hv : v ∈ ALLOWED_BACKENDS
  · refine ⟨⟨?_, ?_⟩, ?_⟩
    · rintro ⟨m, hm⟩
      unfold QuantumComputer.set_backend at hm
      rw [if_neg (not_not_intro hv)] at hm
      exact Except.noConfusion hm
    · intro h
      exact absurd hv h
    · intro _
      unfold QuantumComputer.set_backend
      rw [if_neg (not_not_intro hv)]
      exact ⟨rfl, rfl⟩
  · refine ⟨⟨?_, ?_⟩, ?_⟩
    · intro _
      exact hv
    · intro _
      unfold QuantumComputer.set_backend
      rw [if_pos hv]
      exact ⟨_, rfl⟩
    · intro h
      exact absurd h hv

/-- Witness for C6 at the server wrapper and the allowed value
`"noisy"`. -/
theorem C6_backend_setter_spec_witness :
    qcW.set_backend "noisy" = Except.ok { qcW with backend := "noisy" } ∧
    ({ qcW with backend := "noisy" } : QuantumComputer).backend = "noisy" :=
  (C6_backend_setter_spec qcW "noisy").2 (by decide)

/-- C7: every operation on a wrapper satisfying the invariants — the
`num_qubits` setter, the `backend` setter, and circuit execution (whose
only state effect is populating the backend cache) — yields a state
that again satisfies them: `num_qubits ≥ 1`, `num_qubits ≤ max_qubits`
when `max_qubits > 0`, `backend` in the allowed set, and cache keys a
subset of the allowed set.  A failed setter returns no new state, so
the unchanged state keeps the invariants trivially. -/
theorem C7_operations_preserve_invariant (qc : QuantumComputer) (h : qc.Invariant) :
    (∀ n qc2, qc.set_num_qubits n = Except.ok qc2 → qc2.Invariant) ∧
    (∀ v qc2, qc.set_backend v = Except.ok qc2 → qc2.Invariant) ∧
    (qc.call_state).Invariant := by
  obtain ⟨h1, h2, h3, h4⟩ := h
  refine ⟨?_, ?_, ?_⟩
  · intro n qc2 hok
    unfold QuantumComputer.set_num_qubits at hok
    by_cases hn : n ≤ 0
    · rw [if_pos hn] at hok
      exact Except.noConfusion hok
    · rw [if_neg hn] at hok
      by_cases hm : qc.max_qubits ≠ 0
      · rw [if_pos hm] at hok
        by_cases hg : n > qc.max_qubits
        · rw [if_pos hg] at hok
          exact Except.noConfusion hok
        · rw [if_neg hg] at hok
          obtain rfl := Except.ok.inj hok
          exact ⟨show (1 : Int) ≤ n by omega,
            fun _ => show n ≤ qc.max_qubits by omega, h3, h4⟩
      · rw [if_neg hm] at hok
        obtain rfl := Except.ok.inj hok
        refine ⟨show (1 : Int) ≤ n by omega, fun hp => ?_, h3, h4⟩
        have hp2 : (0 : Int) < qc.max_qubits := hp
        show n ≤ qc.max_qubits
        omega
  · intro v qc2 hok
    unfold QuantumComputer.set_backend at hok
    by_cases hv : v ∈ ALLOWED_BACKENDS
    · rw [if_neg (not_not_intro hv)] at hok
      obtain rfl := Except.ok.inj hok
      exact ⟨h1, h2, hv, h4⟩
    · rw [if_pos hv] at hok
      exact Except.noConfusion hok
  · unfold QuantumComputer.call_state
    by_cases hmem : qc.backend ∈ qc.simulators
    · rw [if_pos hmem]
      exact ⟨h1, h2, h3, h4⟩
    · rw [if_neg hmem]
      unfold QuantumComputer.init_backend
      have happ : ∀ k ∈ qc.simulators ++ [qc.backend], k ∈ ALLOWED_BACKENDS := by
        intro k hk
        rcases List.mem_append.mp hk with hk | hk
        · exact h4 k hk
        · rw [List.mem_singleton] at hk
          rw [hk]
          exact h3
      have hb := h3
      simp only [ALLOWED_BACKENDS, List.mem_cons, List.mem_singleton,
        List.not_mem_nil, or_false] at hb
      rcases hb with hb | hb
      · rw [if_pos hb]
        exact ⟨h1, h2, h3, happ⟩
      · rw [if_neg (by rw [hb]; decide), if_pos hb]
        exact ⟨h1, h2, h3, happ⟩

/-- Witness for C7: the server wrapper satisfies the invariants, and so
does its state after a circuit execution populates the cache. -/
theorem C7_operations_preserve_invariant_witness :
    (qcW.call_state).Invariant :=
  (C7_operations_preserve_invariant qcW (by decide)).2.2

/-- C8 counterexample: the empty JSON object `\x7b\x7d` is a well-formed
body lacking the `backend` field, yet the handler answers with the
missing-body message, not the invalid-backend message the claim
asserts: `request.get_json()` returns an empty dict, which is falsy, so
the handler returns at its missing-body check before ever stringifying
the field. -/
theorem C8_counterexample_empty_body :
    update_backend (Option.some []) qcW
      = Except.ok (400, RespBody.withMessage "Missing request body."
          "Request contained no JSON body.", qcW) ∧
    RespBody.withMessage "Missing request body." "Request contained no JSON body."
      ≠ RespBody.withMessage "Invalid backend."
          "The provided backend (None) is invalid. Allowed values: (\x27fault-tolerant\x27, \x27noisy\x27)" := by
  exact ⟨by decide, by decide⟩

/-- C8 (amended to non-empty bodies): for every non-empty well-formed
JSON body that lacks the `backend` field, the handler never takes its
missing-field branch: `str(data.get("backend"))` is the truthy string
`"None"`, the backend setter rejects it with `ValueError`, and the
response is 400 with the invalid-backend message. -/
theorem C8_missing_backend_field_rejected_as_invalid (d : Dict) (qc : QuantumComputer)
    (hne : d ≠ []) (habs : d.find? (fun kv => kv.fst == "backend") = Option.none) :
    update_backend (Option.some d) qc
      = Except.ok (400, RespBody.withMessage "Invalid backend."
          "The provided backend (None) is invalid. Allowed values: (\x27fault-tolerant\x27, \x27noisy\x27)", qc) := by
  obtain ⟨a, as, rfl⟩ : ∃ a as, d = a :: as := by
    cases d with
    | nil => exact absurd rfl hne
    | cons a as => exact ⟨a, as, rfl⟩
  have hget : dictGet (a :: as) "backend" = PyVal.none := by
    unfold dictGet
    rw [habs]
  have hsb : qc.set_backend "None" = Except.error (PyErr.valueError
      ("The provided backend (None) is invalid. Allowed values: (\x27fault-tolerant\x27, \x27noisy\x27)")) := by
    unfold QuantumComputer.set_backend
    rw [if_pos (by decide : "None" ∉ ALLOWED_BACKENDS)]
    decide
  unfold update_backend
  simp only [List.isEmpty_cons, Bool.false_eq_true, if_false, hget, str_of, hsb]
  rw [if_neg (by decide : ¬ ("None" : String) = "")]

/-- Witness for the amended C8 at a concrete non-empty body without a
`backend` field. -/
theorem C8_missing_backend_field_rejected_as_invalid_witness :
    update_backend (Option.some [("x", PyVal.pyInt 1)]) qcW
      = Except.ok (400, RespBody.withMessage "Invalid backend."
          "The provided backend (None) is invalid. Allowed values: (\x27fault-tolerant\x27, \x27noisy\x27)", qcW) :=
  C8_missing_backend_field_rejected_as_invalid [("x", PyVal.pyInt 1)] qcW
    (by decide) (by decide)

/-- C9: on a well-formed body containing a truthy script, the `/execute`
handler forwards the stored `shots` value to the simulator exactly when
it is truthy, and substitutes 1024 whenever it is falsy (absent, `null`,
`0`, …). -/
theorem C9_shots_defaulting (d : Dict) (eng : PyVal → PyVal → EngOutcome)
    (parse : ParseResult) (qc : QuantumComputer)
    (hne : d ≠ []) (hs : pyTruthy (dictGet d "script") = true) :
    (pyTruthy (dictGet d "shots") = false →
      run_script (Option.some d) eng parse qc
        = run_with eng parse qc (dictGet d "script") (PyVal.pyInt 1024)) ∧
    (pyTruthy (dictGet d "shots") = true →
      run_script (Option.some d) eng parse qc
        = run_with eng parse qc (dictGet d "script") (dictGet d "shots")) := by
  obtain ⟨a, as, rfl⟩ : ∃ a as, d = a :: as := by
    cases d with
    | nil => exact absurd rfl hne
    | cons a as => exact ⟨a, as, rfl⟩
  constructor
  · intro h
    unfold run_script
    simp only [List.isEmpty_cons, Bool.false_eq_true, if_false, hs, h,
      Bool.true_eq_false, ite_false]
  · intro h
    unfold run_script
    simp only [List.isEmpty_cons, Bool.false_eq_true, if_false, hs, h,
      Bool.true_eq_false, ite_true]

/-- Witness for C9: a body whose `shots` field is `0` (falsy) makes the
handler call the engine with 1024 shots. -/
theorem C9_shots_defaulting_witness :
    run_script (Option.some dW) engW parseW qcW
      = run_with engW parseW qcW (dictGet dW "script") (PyVal.pyInt 1024) :=
  (C9_shots_defaulting dW engW parseW qcW (by decide) (by decide)).1 (by decide)

/-- C10: the claim states that `/validate` answers 200 on every
well-formed body with a non-empty script, reporting invalidity only
inside the diagnostic record.  In fact the handler calls
`validate_qasm` unguarded, and `validate_qasm` raises `NameError` on
every script that parses, respects the qubit limit and has matching
registers (the misnamed `has_intermediate_measurement`), so for such
scripts — including perfectly valid circuits — the exception escapes and
Flask answers 500, not 200. -/
theorem C10_validate_answers_500_on_clean_script :
    validate_script (Option.some [("script", PyVal.pyStr bellScript)])
        (ParseResult.ok { num_qubits := 2, num_clbits := 2 }) qcW
      = Except.error (PyErr.nameError "has_intermediate_measurement") ∧
    httpStatus (validate_script (Option.some [("script", PyVal.pyStr bellScript)])
        (ParseResult.ok { num_qubits := 2, num_clbits := 2 }) qcW) = 500 := by
  exact ⟨by rfl, by rfl⟩

end RPiQC
